import Mathlib

/-!
# Verification of the talkative VoiceServer core

A shallow embedding of the per-session audio accumulation and turn-taking
state machine of `src/VoiceServer.ts`, together with proofs of the spec's
testable properties.

Modelling conventions:
* JS `Buffer` values are `List Nat` (byte sequences); only sizes and
  identity of the bytes matter to the verified logic.
* `Date.now()` is an explicit `now : Nat` field of the server state,
  timestamps are `Nat` milliseconds.
* The JS `Map` objects `sessions` and `processingStates` are association
  lists with first-match lookup (keys are unique in all reachable states).
* `setTimeout` handles are numeric ids drawn from a counter; the server
  state records every id ever scheduled and every id passed to
  `clearTimeout`, so that "which timer is still pending" is observable.
* Collaborator calls (`transcribe`, `generateResponse`, `synthesize`) are
  pure functions returning `Except String _`; `Except.error` models a
  thrown/rejected promise. Call counters record how often each collaborator
  was invoked (one STT call = one accepted pipeline invocation).
* JS mutation of an object captured by a closure is modelled by
  `updS` (update-if-present): after the entry is deleted from the map the
  mutation is invisible through the map, exactly as in the source.
-/

namespace Talkative

/-- Raw audio bytes (a JS `Buffer`). -/
abbrev Chunk := List Nat

/-- Message role, `'user' | 'assistant'` in `types/index.ts`. -/
inductive Role where
  | user
  | assistant
deriving DecidableEq, Repr

/-- `ConversationMessage` of `types/index.ts` (uuid modelled as a Nat drawn
from a counter; `audioUrl` is never set by the server and omitted). -/
structure ConversationMessage where
  id : Nat
  role : Role
  content : String
  timestamp : Nat
deriving DecidableEq, Repr

/-- `Session` of `types/index.ts` (the static provider `config` snapshot is
omitted: it is copied from server config and never read by the core). -/
structure Session where
  id : String
  createdAt : Nat
  lastActivity : Nat
  conversationHistory : List ConversationMessage
deriving DecidableEq, Repr

/-- `TranscriptionResult` of `types/index.ts`; `confidence` is a rational
(the source compares it only against the literal 0.5). -/
structure TranscriptionResult where
  text : String
  confidence : Rat
  isFinal : Bool
deriving DecidableEq, Repr

/-- `TTSResult` of `types/index.ts`. -/
structure TTSResult where
  audioBuffer : Chunk
  duration : Nat
deriving DecidableEq, Repr

/-- `AudioBuffer` of `VoiceServer.ts` (the private interface). The
`silenceTimer` handle is a timer id. -/
structure AudioBuffer where
  chunks : List Chunk
  startTime : Nat
  lastChunkTime : Nat
  isProcessing : Bool
  silenceTimer : Option Nat
deriving DecidableEq, Repr

/-- `ProcessingState` of `VoiceServer.ts`. -/
structure ProcessingState where
  isListening : Bool
  isProcessing : Bool
  currentAudioBuffer : Option AudioBuffer
  pendingTranscription : Bool
deriving DecidableEq, Repr

/-- Events emitted to the client socket (`socket.emit` / room emit). -/
inductive ClientEvent where
  | sessionJoined (sessionId : String)
  | listeningStarted (sessionId : String)
  | listeningStopped (sessionId : String)
  | transcription (result : TranscriptionResult)
  | llmResponse (text : String)
  | ttsAudio (audio : Chunk)
  | error (message : String)
  | sessionTimeout
deriving DecidableEq, Repr

/-- Events emitted on the server's own EventEmitter (`this.emit`). -/
inductive ServerEvent where
  | sessionCreated (sessionId : String)
  | sessionDestroyed (sessionId : String)
  | transcriptionComplete (sessionId : String) (text : String)
  | llmResponseComplete (sessionId : String) (text : String)
  | ttsComplete (sessionId : String) (audio : Chunk)
  | error (message : String)
deriving DecidableEq, Repr

/-- The three external collaborators. `Except.error` models a thrown
error whose `message` is the carried string. -/
structure Collaborators where
  transcribe : Chunk → Except String TranscriptionResult
  generateResponse : List (Role × String) → Except String String
  synthesize : String → Except String TTSResult

/-- The whole observable server state. `clientEvents` pairs each emitted
event with the session it was emitted for. -/
structure ServerState where
  sessions : List (String × Session)
  processingStates : List (String × ProcessingState)
  clientEvents : List (String × ClientEvent)
  serverEvents : List ServerEvent
  now : Nat
  nextTimerId : Nat
  scheduledTimers : List Nat
  cancelledTimers : List Nat
  nextMsgId : Nat
  sttCalls : Nat
  llmCalls : Nat
  ttsCalls : Nat

/-! ## Association-list maps (JS `Map` with string keys) -/

/-- `Map.get`. -/
def getS {α : Type} : List (String × α) → String → Option α
  | [], _ => none
  | (k', v) :: rest, k => if k' = k then some v else getS rest k

/-- `Map.set` (replace existing binding, else append in insertion order). -/
def setS {α : Type} : List (String × α) → String → α → List (String × α)
  | [], k, v => [(k, v)]
  | (k', v') :: rest, k, v =>
      if k' = k then (k, v) :: rest else (k', v') :: setS rest k v

/-- `Map.delete` (first binding). -/
def delS {α : Type} : List (String × α) → String → List (String × α)
  | [], _ => []
  | (k', v') :: rest, k => if k' = k then rest else (k', v') :: delS rest k

/-- Mutation of the map's value object through a captured reference:
visible iff the key is still bound. -/
def updS {α : Type} : List (String × α) → String → (α → α) → List (String × α)
  | [], _, _ => []
  | (k', v') :: rest, k, f =>
      if k' = k then (k', f v') :: rest else (k', v') :: updS rest k f

@[simp] theorem getS_setS_self {α : Type} (m : List (String × α)) (k : String) (v : α) :
    getS (setS m k v) k = some v := by
  induction m with
  | nil => simp [getS, setS]
  | cons hd tl ih =>
      obtain ⟨k', v'⟩ := hd
      by_cases h : k' = k <;> simp [getS, setS, h, ih]

theorem getS_setS_ne {α : Type} (m : List (String × α)) (k k' : String) (v : α)
    (h : k ≠ k') : getS (setS m k v) k' = getS m k' := by
  induction m with
  | nil => simp [getS, setS, h]
  | cons hd tl ih =>
      obtain ⟨k₀, v₀⟩ := hd
      by_cases h0 : k₀ = k
      · subst h0
        simp [getS, setS, h]
      · simp [getS, setS, h0, ih]

@[simp] theorem getS_updS_self {α : Type} (m : List (String × α)) (k : String) (f : α → α) :
    getS (updS m k f) k = (getS m k).map f := by
  induction m with
  | nil => simp [getS, updS]
  | cons hd tl ih =>
      obtain ⟨k', v'⟩ := hd
      by_cases h : k' = k <;> simp [getS, updS, h, ih]

/-! ## Constants (`VoiceServer.ts` lines 51-53, 63) -/

/-- 2 seconds of silence before a scheduled flush fires. -/
def SILENCE_THRESHOLD : Nat := 2000

/-- 10 MiB audio buffer ceiling. -/
def MAX_AUDIO_BUFFER_SIZE : Nat := 10 * 1024 * 1024

/-- 500 ms minimum duration for a silence-triggered flush. -/
def MIN_AUDIO_DURATION : Nat := 500

/-- 30 minute default idle session timeout. -/
def DEFAULT_SESSION_TIMEOUT : Nat := 30 * 60 * 1000

/-! ## Audio Turn Buffer: append and FIFO size-bounded eviction
(`handleAudioChunk`, lines 285-300) -/

/-- JS `String.prototype.trim` on the underlying characters (structural,
so that it evaluates inside the kernel; Lean's own `String.trim` is
definitionally opaque well-founded recursion). -/
def jsTrim (s : String) : String :=
  String.mk ((((s.data.dropWhile Char.isWhitespace).reverse).dropWhile
    Char.isWhitespace).reverse)

/-- `chunks.reduce((sum, chunk) => sum + chunk.length, 0)`. -/
def totalBytes (chunks : List Chunk) : Nat := (chunks.map List.length).sum

/-- The eviction loop
`while (totalSize > MAX_AUDIO_BUFFER_SIZE && audioBuffer.chunks.length > 1)
   { shift; totalSize -= removed.length }`. -/
def evictChunks : List Chunk → Nat → List Chunk × Nat
  | [], total => ([], total)
  | [c], total => ([c], total)
  | c :: c2 :: rest, total =>
      if MAX_AUDIO_BUFFER_SIZE < total then
        evictChunks (c2 :: rest) (total - c.length)
      else (c :: c2 :: rest, total)

/-- Lines 286-300 of `handleAudioChunk`: push the new chunk, then, if the
running sum exceeds the ceiling, run the eviction loop. -/
def appendAndEvict (chunks : List Chunk) (data : Chunk) : List Chunk :=
  if MAX_AUDIO_BUFFER_SIZE < totalBytes (chunks ++ [data]) then
    (evictChunks (chunks ++ [data]) (totalBytes (chunks ++ [data]))).1
  else chunks ++ [data]

@[simp] theorem totalBytes_nil : totalBytes [] = 0 := rfl

@[simp] theorem totalBytes_cons (c : Chunk) (l : List Chunk) :
    totalBytes (c :: l) = c.length + totalBytes l := by
  simp [totalBytes]

theorem evictChunks_suffix : ∀ (cs : List Chunk) (t : Nat),
    (evictChunks cs t).1 <:+ cs
  | [], _ => by simp [evictChunks]
  | [c], _ => by simp [evictChunks]
  | c :: c2 :: rest, t => by
      rw [evictChunks]
      split
      · exact (evictChunks_suffix (c2 :: rest) (t - c.length)).trans
          (List.suffix_cons c (c2 :: rest))
      · exact List.suffix_refl _

theorem evictChunks_ne_nil : ∀ (cs : List Chunk) (t : Nat),
    cs ≠ [] → (evictChunks cs t).1 ≠ []
  | [], _, h => absurd rfl h
  | [c], _, _ => by simp [evictChunks]
  | c :: c2 :: rest, t, _ => by
      rw [evictChunks]
      split
      · exact evictChunks_ne_nil (c2 :: rest) (t - c.length) (by simp)
      · simp

theorem evictChunks_bound : ∀ (cs : List Chunk) (t : Nat), t = totalBytes cs →
    totalBytes (evictChunks cs t).1 ≤ MAX_AUDIO_BUFFER_SIZE ∨
      ∃ c, (evictChunks cs t).1 = [c]
  | [], t, _ => by simp [evictChunks]
  | [c], t, _ => Or.inr ⟨c, by simp [evictChunks]⟩
  | c :: c2 :: rest, t, ht => by
      rw [evictChunks]
      split
      · exact evictChunks_bound (c2 :: rest) (t - c.length)
          (by rw [ht]; simp)
      · rename_i hle
        exact Or.inl (by rw [← ht]; exact Nat.le_of_not_lt hle)

/-- A nonempty suffix of `l ++ [d]` ends with `d`. -/
theorem getLast?_of_suffix_concat {l res : List Chunk} {d : Chunk}
    (hsuf : res <:+ l ++ [d]) (hne : res ≠ []) : res.getLast? = some d := by
  obtain ⟨p, hp⟩ := hsuf
  have h1 : (p ++ res).getLast? = res.getLast? :=
    List.getLast?_append_of_ne_nil p hne
  rw [hp] at h1
  rw [← h1, List.getLast?_concat]

theorem appendAndEvict_suffix (cs : List Chunk) (data : Chunk) :
    appendAndEvict cs data <:+ cs ++ [data] := by
  unfold appendAndEvict
  split
  · exact evictChunks_suffix _ _
  · exact List.suffix_refl _

theorem appendAndEvict_ne_nil (cs : List Chunk) (data : Chunk) :
    appendAndEvict cs data ≠ [] := by
  unfold appendAndEvict
  split
  · exact evictChunks_ne_nil _ _ (by simp)
  · simp

theorem appendAndEvict_getLast (cs : List Chunk) (data : Chunk) :
    (appendAndEvict cs data).getLast? = some data :=
  getLast?_of_suffix_concat (appendAndEvict_suffix cs data)
    (appendAndEvict_ne_nil cs data)

/-- If the newly appended fragment itself fits under the ceiling, the buffer
is under the ceiling after the append, whatever was there before. -/
theorem appendAndEvict_le_of_data_le (cs : List Chunk) (data : Chunk)
    (h : data.length ≤ MAX_AUDIO_BUFFER_SIZE) :
    totalBytes (appendAndEvict cs data) ≤ MAX_AUDIO_BUFFER_SIZE := by
  rcases Nat.lt_or_ge MAX_AUDIO_BUFFER_SIZE (totalBytes (cs ++ [data])) with hgt | hle
  · have hres : appendAndEvict cs data = (evictChunks (cs ++ [data]) (totalBytes (cs ++ [data]))).1 := by
      unfold appendAndEvict
      simp [hgt]
    rcases evictChunks_bound (cs ++ [data]) _ rfl with hb | ⟨c, hc⟩
    · rw [hres]; exact hb
    · have hlast : (evictChunks (cs ++ [data]) (totalBytes (cs ++ [data]))).1.getLast? = some data :=
        getLast?_of_suffix_concat (evictChunks_suffix _ _) (by simp [hc])
      rw [hc] at hlast
      simp only [List.getLast?_singleton, Option.some.injEq] at hlast
      rw [hres, hc, hlast]
      simpa using h
  · have hres : appendAndEvict cs data = cs ++ [data] := by
      unfold appendAndEvict
      simp [Nat.not_lt_of_ge hle]
    rw [hres]
    exact hle

/-! ## Session Registry (`getOrCreateSession`, lines 195-218) -/

/-- `getOrCreateSession`: returns the existing session (touching
`lastActivity`) or creates and registers a fresh one. -/
def getOrCreateSession (sid : String) (st : ServerState) : Session × ServerState :=
  match getS st.sessions sid with
  | some s =>
      let s' := { s with lastActivity := st.now }
      (s', { st with sessions := setS st.sessions sid s' })
  | none =>
      let s : Session :=
        { id := sid, createdAt := st.now, lastActivity := st.now,
          conversationHistory := [] }
      (s, { st with sessions := setS st.sessions sid s,
                    serverEvents := st.serverEvents ++ [ServerEvent.sessionCreated sid] })

/-- `join-session` handler (lines 135-153): get-or-create the session and
install a fresh `ProcessingState`. -/
def joinSession (sid : String) (st : ServerState) : ServerState :=
  let (_, st) := getOrCreateSession sid st
  { st with
      processingStates := setS st.processingStates sid
        { isListening := false, isProcessing := false,
          currentAudioBuffer := none, pendingTranscription := false },
      clientEvents := st.clientEvents ++ [(sid, ClientEvent.sessionJoined sid)] }

/-- `startListening` (lines 220-241). -/
def startListening (sid : String) (st : ServerState) : ServerState :=
  match getS st.processingStates sid with
  | none => st
  | some ps =>
      if ps.isListening then st
      else
        let ps' : ProcessingState :=
          { ps with isListening := true,
                    currentAudioBuffer := some
                      { chunks := [], startTime := st.now,
                        lastChunkTime := st.now, isProcessing := false,
                        silenceTimer := none } }
        { st with processingStates := setS st.processingStates sid ps',
                  clientEvents := st.clientEvents ++ [(sid, ClientEvent.listeningStarted sid)] }

/-! ## Conversation Pipeline (`processUserMessage`, lines 379-429) -/

/-- The `{role, content}` projection sent to the LLM (lines 395-398). -/
def toLLMMessages (history : List ConversationMessage) : List (Role × String) :=
  history.map (fun m => (m.role, m.content))

/-- `processUserMessage`: append the user message, call the LLM, append the
assistant message, synthesize; collaborator failures are caught in the
function's own try/catch and reported to client and owner. -/
def processUserMessage (collab : Collaborators) (sid : String) (text : String)
    (st : ServerState) : ServerState :=
  let (session, st) := getOrCreateSession sid st
  let userMessage : ConversationMessage :=
    { id := st.nextMsgId, role := .user, content := text, timestamp := st.now }
  let session := { session with
      conversationHistory := session.conversationHistory ++ [userMessage],
      lastActivity := st.now }
  let st := { st with sessions := setS st.sessions sid session,
                      nextMsgId := st.nextMsgId + 1 }
  let messages := toLLMMessages session.conversationHistory
  let st := { st with llmCalls := st.llmCalls + 1 }
  match collab.generateResponse messages with
  | .error e =>
      let msg := "Failed to process message: " ++ e
      { st with clientEvents := st.clientEvents ++ [(sid, ClientEvent.error msg)],
                serverEvents := st.serverEvents ++ [ServerEvent.error msg] }
  | .ok responseText =>
      let assistantMessage : ConversationMessage :=
        { id := st.nextMsgId, role := .assistant, content := responseText,
          timestamp := st.now }
      let session := { session with
          conversationHistory := session.conversationHistory ++ [assistantMessage] }
      let st := { st with sessions := setS st.sessions sid session,
                          nextMsgId := st.nextMsgId + 1 }
      let st := { st with
          clientEvents := st.clientEvents ++ [(sid, ClientEvent.llmResponse responseText)],
          serverEvents := st.serverEvents ++ [ServerEvent.llmResponseComplete sid responseText] }
      let st := { st with ttsCalls := st.ttsCalls + 1 }
      match collab.synthesize responseText with
      | .error e =>
          let msg := "Failed to process message: " ++ e
          { st with clientEvents := st.clientEvents ++ [(sid, ClientEvent.error msg)],
                    serverEvents := st.serverEvents ++ [ServerEvent.error msg] }
      | .ok ttsResult =>
          { st with
              clientEvents := st.clientEvents ++ [(sid, ClientEvent.ttsAudio ttsResult.audioBuffer)],
              serverEvents := st.serverEvents ++ [ServerEvent.ttsComplete sid ttsResult.audioBuffer] }

/-! ## Turn Processing Guard (`processAudioBuffer`, lines 337-377)

The source function is `async`; its synchronous prefix (up to the
`await transcribe`) performs the guard check-and-set and drains the buffer,
so a competing trigger in the same event tick already observes
`isProcessing = true`. We split it accordingly: `pabAccept` is the
synchronous prefix (`none` = the guarded no-op return), `pabFinish` is the
rest of the function including the `finally` reset. -/

/-- Synchronous prefix of `processAudioBuffer`: the guard
(`!state || state.isProcessing || audioBuffer.isProcessing`), the empty
check, setting the busy flags and draining the chunks. Returns the combined
audio and the state as it is at the `await` suspension point. Callers always
pass `state.currentAudioBuffer` as the buffer argument, so a missing buffer
is treated as the guarded no-op. -/
def pabAccept (sid : String) (st : ServerState) : Option (Chunk × ServerState) :=
  match getS st.processingStates sid with
  | none => none
  | some ps =>
      if ps.isProcessing then none
      else
        match ps.currentAudioBuffer with
        | none => none
        | some buf =>
            if buf.isProcessing then none
            else if buf.chunks = [] then none
            else
              let audio := buf.chunks.flatten
              let buf' := { buf with chunks := [], isProcessing := false }
              let ps' := { ps with isProcessing := true,
                                   currentAudioBuffer := some buf' }
              some (audio, { st with
                processingStates := setS st.processingStates sid ps' })

/-- The rest of `processAudioBuffer` from the `await transcribe` on:
emit the transcription, gate on trimmed text and confidence > 0.5, run
`processUserMessage`, catch errors, and in `finally` reset the captured
state's `isProcessing` (an object mutation: visible through the map only
while the entry is still present, hence `updS`). -/
def pabFinish (collab : Collaborators) (sid : String) (audio : Chunk)
    (st : ServerState) : ServerState :=
  let st := { st with sttCalls := st.sttCalls + 1 }
  let st :=
    (match collab.transcribe audio with
    | .error e =>
        let msg := "Failed to process audio: " ++ e
        { st with clientEvents := st.clientEvents ++ [(sid, ClientEvent.error msg)] }
    | .ok transcription =>
        let st := { st with
            clientEvents := st.clientEvents ++ [(sid, ClientEvent.transcription transcription)],
            serverEvents := st.serverEvents ++
              [ServerEvent.transcriptionComplete sid transcription.text] }
        if jsTrim transcription.text ≠ "" ∧ mkRat 1 2 < transcription.confidence then
          processUserMessage collab sid transcription.text st
        else st)
  { st with
      processingStates :=
        updS st.processingStates sid (fun ps => { ps with isProcessing := false }) }

/-- `processAudioBuffer` as one atomic step (no competing trigger between
the suspension points). -/
def processAudioBuffer (collab : Collaborators) (sid : String)
    (st : ServerState) : ServerState :=
  match pabAccept sid st with
  | none => st
  | some (audio, st') => pabFinish collab sid audio st'

/-- Two flush triggers for the same session in the same event tick: the
first runs its synchronous prefix and suspends at the STT call, the second
then runs in full (observing `isProcessing = true`), and finally the first
resumes. -/
def twoFlushRace (collab : Collaborators) (sid : String)
    (st : ServerState) : ServerState :=
  match pabAccept sid st with
  | none => processAudioBuffer collab sid st
  | some (audio, st') =>
      pabFinish collab sid audio (processAudioBuffer collab sid st')

/-! ## Silence/Turn Detector and fragment intake
(`handleAudioChunk`, lines 267-325) -/

/-- Record a `clearTimeout` call for the buffer's pending silence timer, if
any. -/
def clearSilenceTimer (buf : AudioBuffer) (st : ServerState) : ServerState :=
  match buf.silenceTimer with
  | some tm => { st with cancelledTimers := st.cancelledTimers ++ [tm] }
  | none => st

/-- `handleAudioChunk`: drop the fragment unless the session is listening;
append it to the (possibly freshly created) buffer with FIFO eviction;
cancel the previous silence timer and schedule a new one; on `isFinal`,
cancel the fresh timer and flush immediately via `processAudioBuffer`. -/
def handleAudioChunk (collab : Collaborators) (sid : String) (data : Chunk)
    (isFinal : Bool) (st : ServerState) : ServerState :=
  match getS st.processingStates sid with
  | none => st
  | some ps =>
      if ps.isListening = false then st
      else
        let buf : AudioBuffer :=
          match ps.currentAudioBuffer with
          | some b => b
          | none =>
              { chunks := [], startTime := st.now, lastChunkTime := st.now,
                isProcessing := false, silenceTimer := none }
        let buf := { buf with chunks := appendAndEvict buf.chunks data,
                              lastChunkTime := st.now }
        let st := clearSilenceTimer buf st
        let newId := st.nextTimerId
        let st := { st with nextTimerId := newId + 1,
                            scheduledTimers := st.scheduledTimers ++ [newId] }
        let buf := { buf with silenceTimer := some newId }
        let ps := { ps with currentAudioBuffer := some buf }
        let st := { st with processingStates := setS st.processingStates sid ps }
        if isFinal then
          let st := { st with cancelledTimers := st.cancelledTimers ++ [newId] }
          let ps := { ps with
              currentAudioBuffer := some { buf with silenceTimer := none } }
          let st := { st with processingStates := setS st.processingStates sid ps }
          processAudioBuffer collab sid st
        else st

/-- `stopListening` (lines 243-265): stop accepting fragments, cancel the
pending silence timer, flush any buffered audio, drop the buffer. -/
def stopListening (collab : Collaborators) (sid : String)
    (st : ServerState) : ServerState :=
  match getS st.processingStates sid with
  | none => st
  | some ps =>
      let ps := { ps with isListening := false }
      let st :=
        (match ps.currentAudioBuffer with
        | some buf => clearSilenceTimer buf st
        | none => st)
      let ps :=
        (match ps.currentAudioBuffer with
        | some buf => { ps with currentAudioBuffer := some { buf with silenceTimer := none } }
        | none => ps)
      let st := { st with processingStates := setS st.processingStates sid ps }
      let st :=
        (match ps.currentAudioBuffer with
        | some buf => if buf.chunks ≠ [] then processAudioBuffer collab sid st else st
        | none => st)
      let st := { st with
          processingStates :=
            updS st.processingStates sid (fun p => { p with currentAudioBuffer := none }),
          clientEvents := st.clientEvents ++ [(sid, ClientEvent.listeningStopped sid)] }
      st

/-- `handleEndAudio` (lines 327-335) just delegates to `stopListening`. -/
def handleEndAudio (collab : Collaborators) (sid : String)
    (st : ServerState) : ServerState :=
  stopListening collab sid st

/-! ## Session teardown (`destroySession` lines 493-509,
`startSessionCleanup` lines 437-452) -/

/-- `destroySession`: cancels the pending silence timer (if any), removes
the processing state and the session, notifies the room and the owner.
Returns whether a session existed. -/
def destroySession (sid : String) (st : ServerState) : Bool × ServerState :=
  match getS st.sessions sid with
  | none => (false, st)
  | some _ =>
      let st :=
        (match getS st.processingStates sid with
        | some ps =>
            (match ps.currentAudioBuffer with
            | some buf => clearSilenceTimer buf st
            | none => st)
        | none => st)
      let st := { st with
          processingStates := delS st.processingStates sid,
          sessions := delS st.sessions sid,
          clientEvents := st.clientEvents ++ [(sid, ClientEvent.sessionTimeout)],
          serverEvents := st.serverEvents ++ [ServerEvent.sessionDestroyed sid] }
      (true, st)

/-- One tick of the `startSessionCleanup` interval: for every session whose
`lastActivity` is older than `now - sessionTimeout`, delete the session and
its processing state and notify. Note the source deletes the maps' entries
directly and, unlike `destroySession`, never calls `clearTimeout`. -/
def sessionCleanupSweep (sessionTimeout : Nat) (st : ServerState) : ServerState :=
  let timeoutThreshold := st.now - sessionTimeout
  st.sessions.foldl
    (fun acc entry =>
      if entry.2.lastActivity < timeoutThreshold then
        { acc with
            sessions := delS acc.sessions entry.1,
            processingStates := delS acc.processingStates entry.1,
            clientEvents := acc.clientEvents ++ [(entry.1, ClientEvent.sessionTimeout)],
            serverEvents := acc.serverEvents ++ [ServerEvent.sessionDestroyed entry.1] }
      else acc)
    st

/-! ## Timer observables -/

/-- Timer ids that have been scheduled and never cancelled: exactly the
callbacks that can still fire. -/
def pendingTimers (st : ServerState) : List Nat :=
  st.scheduledTimers.filter (fun t => ¬ t ∈ st.cancelledTimers)

/-- The silence-timer id currently held by the session's buffer. -/
def currentTimer (sid : String) (st : ServerState) : Option Nat :=
  match getS st.processingStates sid with
  | none => none
  | some ps =>
      match ps.currentAudioBuffer with
      | none => none
      | some buf => buf.silenceTimer

/-! ## Helper lemmas about the pipeline -/

/-- The `{role, content}` view of one message. -/
def roleContent (m : ConversationMessage) : Role × String := (m.role, m.content)

theorem toLLMMessages_append (a b : List ConversationMessage) :
    toLLMMessages (a ++ b) = toLLMMessages a ++ toLLMMessages b := by
  simp [toLLMMessages]

/-- `processUserMessage` never touches the processing states, the timers or
the STT counter. -/
theorem processUserMessage_frame (collab : Collaborators) (sid text : String)
    (st : ServerState) :
    (processUserMessage collab sid text st).processingStates = st.processingStates ∧
    (processUserMessage collab sid text st).sttCalls = st.sttCalls ∧
    (processUserMessage collab sid text st).scheduledTimers = st.scheduledTimers ∧
    (processUserMessage collab sid text st).cancelledTimers = st.cancelledTimers := by
  unfold processUserMessage getOrCreateSession
  rcases hs : getS st.sessions sid with _ | s <;>
    simp only [hs] <;> split <;> (try split) <;> simp

@[simp] theorem processUserMessage_processingStates (collab : Collaborators)
    (sid text : String) (st : ServerState) :
    (processUserMessage collab sid text st).processingStates = st.processingStates :=
  (processUserMessage_frame collab sid text st).1

@[simp] theorem processUserMessage_sttCalls (collab : Collaborators)
    (sid text : String) (st : ServerState) :
    (processUserMessage collab sid text st).sttCalls = st.sttCalls :=
  (processUserMessage_frame collab sid text st).2.1

@[simp] theorem processUserMessage_llmCalls (collab : Collaborators)
    (sid text : String) (st : ServerState) :
    (processUserMessage collab sid text st).llmCalls = st.llmCalls + 1 := by
  unfold processUserMessage getOrCreateSession
  rcases hs : getS st.sessions sid with _ | s <;>
    simp only [hs] <;> split <;> (try split) <;> simp

/-- Successful LLM call: `processUserMessage` appends exactly the user and
the assistant message to the registered session's history. -/
theorem processUserMessage_ok (collab : Collaborators) (sid text rt : String)
    (st : ServerState) (sess : Session)
    (hsess : getS st.sessions sid = some sess)
    (hllm : collab.generateResponse
      (toLLMMessages sess.conversationHistory ++ [(Role.user, text)]) = .ok rt) :
    (∃ s, getS (processUserMessage collab sid text st).sessions sid = some s ∧
      s.conversationHistory.map roleContent =
        sess.conversationHistory.map roleContent ++
          [(Role.user, text), (Role.assistant, rt)]) ∧
    (processUserMessage collab sid text st).llmCalls = st.llmCalls + 1 := by
  unfold processUserMessage getOrCreateSession
  simp only [hsess]
  have hmsgs :
      toLLMMessages (sess.conversationHistory ++
        [{ id := st.nextMsgId, role := Role.user, content := text,
           timestamp := st.now }]) =
      toLLMMessages sess.conversationHistory ++ [(Role.user, text)] := by
    rw [toLLMMessages_append]; rfl
  simp only [hmsgs, hllm]
  rcases ht : collab.synthesize rt with e' | tts <;>
    simp [ht, roleContent, toLLMMessages]

/-- Failed LLM call: the user message stays appended, the assistant message
is never added, TTS is never called, and the failure is reported to the
client and the owning process. -/
theorem processUserMessage_llm_error (collab : Collaborators)
    (sid text e : String) (st : ServerState) (sess : Session)
    (hsess : getS st.sessions sid = some sess)
    (hllm : collab.generateResponse
      (toLLMMessages sess.conversationHistory ++ [(Role.user, text)]) = .error e) :
    (∃ s, getS (processUserMessage collab sid text st).sessions sid = some s ∧
      s.conversationHistory.map roleContent =
        sess.conversationHistory.map roleContent ++ [(Role.user, text)]) ∧
    (processUserMessage collab sid text st).ttsCalls = st.ttsCalls ∧
    (sid, ClientEvent.error ("Failed to process message: " ++ e)) ∈
      (processUserMessage collab sid text st).clientEvents ∧
    ServerEvent.error ("Failed to process message: " ++ e) ∈
      (processUserMessage collab sid text st).serverEvents := by
  unfold processUserMessage getOrCreateSession
  simp only [hsess]
  have hmsgs :
      toLLMMessages (sess.conversationHistory ++
        [{ id := st.nextMsgId, role := Role.user, content := text,
           timestamp := st.now }]) =
      toLLMMessages sess.conversationHistory ++ [(Role.user, text)] := by
    rw [toLLMMessages_append]; rfl
  simp only [hmsgs, hllm]
  simp [roleContent, toLLMMessages]

/-- Failed synthesis after a successful completion: both messages stay
recorded and the failure is reported. -/
theorem processUserMessage_tts_error (collab : Collaborators)
    (sid text rt e : String) (st : ServerState) (sess : Session)
    (hsess : getS st.sessions sid = some sess)
    (hllm : collab.generateResponse
      (toLLMMessages sess.conversationHistory ++ [(Role.user, text)]) = .ok rt)
    (htts : collab.synthesize rt = .error e) :
    (∃ s, getS (processUserMessage collab sid text st).sessions sid = some s ∧
      s.conversationHistory.map roleContent =
        sess.conversationHistory.map roleContent ++
          [(Role.user, text), (Role.assistant, rt)]) ∧
    (sid, ClientEvent.error ("Failed to process message: " ++ e)) ∈
      (processUserMessage collab sid text st).clientEvents ∧
    ServerEvent.error ("Failed to process message: " ++ e) ∈
      (processUserMessage collab sid text st).serverEvents := by
  unfold processUserMessage getOrCreateSession
  simp only [hsess]
  have hmsgs :
      toLLMMessages (sess.conversationHistory ++
        [{ id := st.nextMsgId, role := Role.user, content := text,
           timestamp := st.now }]) =
      toLLMMessages sess.conversationHistory ++ [(Role.user, text)] := by
    rw [toLLMMessages_append]; rfl
  simp only [hmsgs, hllm, htts]
  simp [roleContent, toLLMMessages]

/-- The chunks of the session's current buffer (empty if no buffer). -/
def bufChunks (ps : ProcessingState) : List Chunk :=
  match ps.currentAudioBuffer with
  | none => []
  | some b => b.chunks

/-- The guard accepts: busy flags are set and the buffer is drained,
exactly the state at the `await transcribe` suspension point. -/
theorem pabAccept_eq_some (sid : String) (st : ServerState)
    (ps : ProcessingState) (buf : AudioBuffer)
    (hps : getS st.processingStates sid = some ps)
    (hproc : ps.isProcessing = false)
    (hbuf : ps.currentAudioBuffer = some buf)
    (hbp : buf.isProcessing = false)
    (hne : buf.chunks ≠ []) :
    pabAccept sid st = some (buf.chunks.flatten,
      { st with
          processingStates :=
            setS st.processingStates sid
              { ps with
                  isProcessing := true,
                  currentAudioBuffer :=
                    some { buf with chunks := [], isProcessing := false } } }) := by
  simp [pabAccept, hps, hproc, hbuf, hbp, hne]

/-- A busy session makes the guard reject. -/
theorem pabAccept_busy (sid : String) (st : ServerState) (ps : ProcessingState)
    (hps : getS st.processingStates sid = some ps)
    (hproc : ps.isProcessing = true) :
    pabAccept sid st = none := by
  simp [pabAccept, hps, hproc]

/-- An empty (or absent) buffer makes the guard reject. -/
theorem pabAccept_empty (sid : String) (st : ServerState) (ps : ProcessingState)
    (hps : getS st.processingStates sid = some ps)
    (hemp : bufChunks ps = []) :
    pabAccept sid st = none := by
  unfold pabAccept
  rw [hps]
  by_cases hproc : ps.isProcessing
  · simp [hproc]
  · rcases hb : ps.currentAudioBuffer with _ | buf
    · simp [hproc, hb]
    · simp only [bufChunks, hb] at hemp
      by_cases hbp : buf.isProcessing <;> simp [hproc, hb, hbp, hemp]

/-- A rejected submission leaves the whole state untouched. -/
theorem processAudioBuffer_of_none (collab : Collaborators) (sid : String)
    (st : ServerState) (h : pabAccept sid st = none) :
    processAudioBuffer collab sid st = st := by
  simp [processAudioBuffer, h]

@[simp] theorem pabFinish_sttCalls (collab : Collaborators) (sid : String)
    (audio : Chunk) (st : ServerState) :
    (pabFinish collab sid audio st).sttCalls = st.sttCalls + 1 := by
  unfold pabFinish
  split <;> (try split) <;> simp

@[simp] theorem pabFinish_processingStates (collab : Collaborators)
    (sid : String) (audio : Chunk) (st : ServerState) :
    (pabFinish collab sid audio st).processingStates =
      updS st.processingStates sid (fun ps => { ps with isProcessing := false }) := by
  unfold pabFinish
  split <;> (try split) <;> simp

/-- A failed STT call is caught and reported to the client; no session or
LLM activity happens. -/
theorem pabFinish_stt_error (collab : Collaborators) (sid : String)
    (audio : Chunk) (st : ServerState) (e : String)
    (ht : collab.transcribe audio = .error e) :
    (sid, ClientEvent.error ("Failed to process audio: " ++ e)) ∈
      (pabFinish collab sid audio st).clientEvents ∧
    (pabFinish collab sid audio st).sessions = st.sessions ∧
    (pabFinish collab sid audio st).llmCalls = st.llmCalls := by
  unfold pabFinish
  simp [ht]

/-- A low-confidence or empty transcription is a silent no-op turn: no
session change and no LLM call. -/
theorem pabFinish_lowconf (collab : Collaborators) (sid : String)
    (audio : Chunk) (st : ServerState) (t : TranscriptionResult)
    (ht : collab.transcribe audio = .ok t)
    (hlow : jsTrim t.text = "" ∨ ¬ (mkRat 1 2 < t.confidence)) :
    (pabFinish collab sid audio st).sessions = st.sessions ∧
    (pabFinish collab sid audio st).llmCalls = st.llmCalls := by
  have hcond : ¬ (jsTrim t.text ≠ "" ∧ mkRat 1 2 < t.confidence) := by
    rcases hlow with h | h
    · exact fun hc => hc.1 h
    · exact fun hc => h hc.2
  unfold pabFinish
  simp only [ht]
  rw [if_neg hcond]
  exact ⟨rfl, rfl⟩

/-- A confident transcription appends the user and assistant messages and
counts one LLM call. -/
theorem pabFinish_ok_appends (collab : Collaborators) (sid : String)
    (audio : Chunk) (st : ServerState) (t : TranscriptionResult)
    (sess : Session) (rt : String)
    (hsess : getS st.sessions sid = some sess)
    (ht : collab.transcribe audio = .ok t)
    (htrim : jsTrim t.text ≠ "") (hconf : mkRat 1 2 < t.confidence)
    (hllm : collab.generateResponse
      (toLLMMessages sess.conversationHistory ++ [(Role.user, t.text)]) = .ok rt) :
    (pabFinish collab sid audio st).llmCalls = st.llmCalls + 1 ∧
    ∃ s, getS (pabFinish collab sid audio st).sessions sid = some s ∧
      s.conversationHistory.map roleContent =
        sess.conversationHistory.map roleContent ++
          [(Role.user, t.text), (Role.assistant, rt)] := by
  unfold pabFinish
  simp only [ht]
  rw [if_pos ⟨htrim, hconf⟩]
  constructor
  · simp
  · have h := (processUserMessage_ok collab sid t.text rt
      { st with
          sttCalls := st.sttCalls + 1,
          clientEvents := st.clientEvents ++ [(sid, ClientEvent.transcription t)],
          serverEvents := st.serverEvents ++
            [ServerEvent.transcriptionComplete sid t.text] }
      sess hsess hllm).1
    simpa using h

/-- A failed LLM call inside the pipeline is reported to the client and the
owning process. -/
theorem pabFinish_llm_error_reports (collab : Collaborators) (sid : String)
    (audio : Chunk) (st : ServerState) (t : TranscriptionResult)
    (sess : Session) (e : String)
    (hsess : getS st.sessions sid = some sess)
    (ht : collab.transcribe audio = .ok t)
    (htrim : jsTrim t.text ≠ "") (hconf : mkRat 1 2 < t.confidence)
    (hllm : collab.generateResponse
      (toLLMMessages sess.conversationHistory ++ [(Role.user, t.text)]) = .error e) :
    (sid, ClientEvent.error ("Failed to process message: " ++ e)) ∈
      (pabFinish collab sid audio st).clientEvents ∧
    ServerEvent.error ("Failed to process message: " ++ e) ∈
      (pabFinish collab sid audio st).serverEvents := by
  unfold pabFinish
  simp only [ht]
  rw [if_pos ⟨htrim, hconf⟩]
  have h := processUserMessage_llm_error collab sid t.text e
    { st with
        sttCalls := st.sttCalls + 1,
        clientEvents := st.clientEvents ++ [(sid, ClientEvent.transcription t)],
        serverEvents := st.serverEvents ++
          [ServerEvent.transcriptionComplete sid t.text] }
    sess hsess hllm
  exact ⟨by simpa using h.2.2.1, by simpa using h.2.2.2⟩

/-- A failed synthesis after a successful completion is reported to the
client and the owning process. -/
theorem pabFinish_tts_error_reports (collab : Collaborators) (sid : String)
    (audio : Chunk) (st : ServerState) (t : TranscriptionResult)
    (sess : Session) (rt e : String)
    (hsess : getS st.sessions sid = some sess)
    (ht : collab.transcribe audio = .ok t)
    (htrim : jsTrim t.text ≠ "") (hconf : mkRat 1 2 < t.confidence)
    (hllm : collab.generateResponse
      (toLLMMessages sess.conversationHistory ++ [(Role.user, t.text)]) = .ok rt)
    (htts : collab.synthesize rt = .error e) :
    (sid, ClientEvent.error ("Failed to process message: " ++ e)) ∈
      (pabFinish collab sid audio st).clientEvents ∧
    ServerEvent.error ("Failed to process message: " ++ e) ∈
      (pabFinish collab sid audio st).serverEvents := by
  unfold pabFinish
  simp only [ht]
  rw [if_pos ⟨htrim, hconf⟩]
  have h := processUserMessage_tts_error collab sid t.text rt e
    { st with
        sttCalls := st.sttCalls + 1,
        clientEvents := st.clientEvents ++ [(sid, ClientEvent.transcription t)],
        serverEvents := st.serverEvents ++
          [ServerEvent.transcriptionComplete sid t.text] }
    sess hsess hllm htts
  exact ⟨by simpa using h.2.1, by simpa using h.2.2⟩

/-! ## Concrete collaborators and states used as witnesses -/

/-- Collaborators that always succeed. -/
def okCollab : Collaborators where
  transcribe := fun _ => .ok { text := "hello", confidence := mkRat 9 10, isFinal := true }
  generateResponse := fun _ => .ok "hi there"
  synthesize := fun _ => .ok { audioBuffer := [7, 7], duration := 5 }

/-- Collaborators whose STT always throws. -/
def sttFailCollab : Collaborators :=
  { okCollab with transcribe := fun _ => .error "stt down" }

/-- Collaborators whose STT returns a low-confidence result. -/
def lowConfCollab : Collaborators :=
  { okCollab with
      transcribe := fun _ =>
        .ok { text := "mumble", confidence := mkRat 1 5, isFinal := true } }

/-- Collaborators whose LLM always throws. -/
def llmFailCollab : Collaborators :=
  { okCollab with generateResponse := fun _ => .error "llm down" }

/-- Collaborators whose TTS always throws. -/
def ttsFailCollab : Collaborators :=
  { okCollab with synthesize := fun _ => .error "tts down" }

/-- A server with no sessions at time 1000. -/
def emptyState : ServerState :=
  { sessions := [], processingStates := [], clientEvents := [],
    serverEvents := [], now := 1000, nextTimerId := 0, scheduledTimers := [],
    cancelledTimers := [], nextMsgId := 0,
    sttCalls := 0, llmCalls := 0, ttsCalls := 0 }

/-- The session "s1" as freshly created at time 1000. -/
def demoSession : Session :=
  { id := "s1", createdAt := 1000, lastActivity := 1000, conversationHistory := [] }

/-- A buffer holding one 3-byte fragment with silence timer id 0 pending. -/
def demoBuf : AudioBuffer :=
  { chunks := [[1, 2, 3]], startTime := 1000, lastChunkTime := 1000,
    isProcessing := false, silenceTimer := some 0 }

/-- A listening, idle processing state owning `demoBuf`. -/
def demoPS : ProcessingState :=
  { isListening := true, isProcessing := false,
    currentAudioBuffer := some demoBuf, pendingTranscription := false }

/-- The server after "s1" joined, started listening and sent one fragment
(as produced by `joinSession`, `startListening`, `handleAudioChunk`;
the event log is cleared for brevity). -/
def demoState : ServerState :=
  { sessions := [("s1", demoSession)],
    processingStates := [("s1", demoPS)],
    clientEvents := [], serverEvents := [],
    now := 1000, nextTimerId := 1, scheduledTimers := [0],
    cancelledTimers := [], nextMsgId := 0,
    sttCalls := 0, llmCalls := 0, ttsCalls := 0 }

/-- Arithmetic facts about the demo confidences, available as explicit
terms to the witnesses. -/
theorem demo_conf_high : mkRat 1 2 < mkRat 9 10 := by decide

theorem demo_conf_low : ¬ (mkRat 1 2 < mkRat 1 5) := by decide

/-! ## Claim C2 -/

/-- C2 counterexample: a single fragment larger than the ceiling defeats
the bound — the eviction loop stops at one remaining fragment
(`chunks.length > 1`), so after appending one 10 MiB + 1 fragment the
buffer's total size exceeds the ceiling. -/
theorem C2_counterexample :
    MAX_AUDIO_BUFFER_SIZE <
      totalBytes (appendAndEvict []
        (List.replicate (MAX_AUDIO_BUFFER_SIZE + 1) 0)) := by
  have htot :
      totalBytes ([] ++ [List.replicate (MAX_AUDIO_BUFFER_SIZE + 1) (0 : Nat)]) =
        MAX_AUDIO_BUFFER_SIZE + 1 := by
    simp [totalBytes]
  unfold appendAndEvict
  rw [htot, if_pos (Nat.lt_succ_self _)]
  have hev :
      evictChunks ([] ++ [List.replicate (MAX_AUDIO_BUFFER_SIZE + 1) (0 : Nat)])
        (MAX_AUDIO_BUFFER_SIZE + 1) =
      ([List.replicate (MAX_AUDIO_BUFFER_SIZE + 1) (0 : Nat)],
        MAX_AUDIO_BUFFER_SIZE + 1) := by
    rw [List.nil_append, evictChunks]
  rw [hev]
  simp [totalBytes]

/-- C2 (amended): after an append the buffered total exceeds the 10 MiB
ceiling only when the single retained newest fragment itself exceeds the
ceiling; whenever the newly appended fragment is at most the ceiling, the
total is at most the ceiling after the append, and eviction is oldest-first
(the result is a suffix of the appended sequence). -/
theorem C2_theorem (chunks : List Chunk) (data : Chunk)
    (h : data.length ≤ MAX_AUDIO_BUFFER_SIZE) :
    totalBytes (appendAndEvict chunks data) ≤ MAX_AUDIO_BUFFER_SIZE ∧
      appendAndEvict chunks data <:+ chunks ++ [data] :=
  ⟨appendAndEvict_le_of_data_le chunks data h, appendAndEvict_suffix chunks data⟩

theorem C2_witness :
    ([5, 6] : Chunk).length ≤ MAX_AUDIO_BUFFER_SIZE ∧
      (totalBytes (appendAndEvict [[1], [2]] [5, 6]) ≤ MAX_AUDIO_BUFFER_SIZE ∧
        appendAndEvict [[1], [2]] [5, 6] <:+ [[1], [2]] ++ [[5, 6]]) :=
  ⟨by decide, C2_theorem [[1], [2]] [5, 6] (by decide)⟩

/-! ## Claim C9 -/

/-- C9: eviction discards oldest fragments first (the surviving buffer is a
suffix of the appended sequence) and never empties the buffer: after any
append the buffer is nonempty and still ends with the newest fragment. -/
theorem C9_theorem (chunks : List Chunk) (data : Chunk) :
    appendAndEvict chunks data ≠ [] ∧
      (appendAndEvict chunks data).getLast? = some data ∧
      appendAndEvict chunks data <:+ chunks ++ [data] :=
  ⟨appendAndEvict_ne_nil chunks data, appendAndEvict_getLast chunks data,
    appendAndEvict_suffix chunks data⟩

/-! ## Claim C3 -/

/-- A session idle since time 0 (sweep runs at `now = 2000000`, threshold
`2000000 - 1800000 = 200000`), with silence timer id 0 still pending. -/
def c3StaleSession : Session :=
  { id := "s1", createdAt := 0, lastActivity := 0, conversationHistory := [] }

/-- A session that is still fresh at sweep time. -/
def c3FreshSession : Session :=
  { id := "s2", createdAt := 2000000, lastActivity := 2000000,
    conversationHistory := [] }

/-- The server just before the sweep tick. -/
def c3State : ServerState :=
  { sessions := [("s1", c3StaleSession), ("s2", c3FreshSession)],
    processingStates := [("s1",
      { isListening := true, isProcessing := false,
        currentAudioBuffer := some
          { chunks := [[1]], startTime := 0, lastChunkTime := 0,
            isProcessing := false, silenceTimer := some 0 },
        pendingTranscription := false })],
    clientEvents := [], serverEvents := [],
    now := 2000000, nextTimerId := 1, scheduledTimers := [0],
    cancelledTimers := [], nextMsgId := 0,
    sttCalls := 0, llmCalls := 0, ttsCalls := 0 }

/-- C3 (code bug evidence): the sweep destroys exactly the session whose
idle time exceeds the timeout ("s1" is removed, "s2" survives) — but it
never calls `clearTimeout`: no cancellation is recorded and silence timer
0 is still pending after its session was destroyed, so a timer can fire
referencing a destroyed session, contradicting the claim which
`destroySession` (but not the sweep) satisfies. -/
theorem C3_theorem :
    getS (sessionCleanupSweep DEFAULT_SESSION_TIMEOUT c3State).sessions "s1" =
        none ∧
    getS (sessionCleanupSweep DEFAULT_SESSION_TIMEOUT c3State).sessions "s2" =
        some c3FreshSession ∧
    getS (sessionCleanupSweep DEFAULT_SESSION_TIMEOUT c3State).processingStates
        "s1" = none ∧
    ServerEvent.sessionDestroyed "s1" ∈
      (sessionCleanupSweep DEFAULT_SESSION_TIMEOUT c3State).serverEvents ∧
    (sessionCleanupSweep DEFAULT_SESSION_TIMEOUT c3State).cancelledTimers = [] ∧
    pendingTimers (sessionCleanupSweep DEFAULT_SESSION_TIMEOUT c3State) = [0] := by
  decide

/-- For contrast with the sweep: `destroySession` does cancel the pending
silence timer of the session it removes. -/
theorem destroySession_cancels_timer :
    (destroySession "s1" c3State).2.cancelledTimers = [0] ∧
    pendingTimers (destroySession "s1" c3State).2 = [] := by
  decide

/-! ## Claim C4 -/

/-- The server state after: the pipeline for "s1" accepts the flush and
suspends at the STT call, the session is destroyed mid-flight, and then the
pipeline resumes with successful collaborators. -/
def c4Final : ServerState :=
  match pabAccept "s1" demoState with
  | none => demoState
  | some (audio, st₁) => pabFinish okCollab "s1" audio (destroySession "s1" st₁).2

/-- C4 counterexample: after a mid-pipeline destroy the arriving result is
NOT discarded — `getOrCreateSession` recreates the missing session and the
user and assistant messages are recorded in the recreated session's
history (and a second `session-created` event is emitted after the
`session-destroyed` one). -/
theorem C4_counterexample :
    (getS c4Final.sessions "s1").map
        (fun s => s.conversationHistory.map roleContent) =
      some [(Role.user, "hello"), (Role.assistant, "hi there")] ∧
    ServerEvent.sessionDestroyed "s1" ∈ c4Final.serverEvents ∧
    ServerEvent.sessionCreated "s1" ∈ c4Final.serverEvents := by
  decide

/-- C4 (amended): if the session is absent when the pipeline result
arrives, the in-flight invocation still runs to completion without
crashing, but instead of being discarded the result is recorded: the
registry lookup recreates the session and both turn messages land in the
recreated session's history. -/
theorem C4_theorem (collab : Collaborators) (sid text rt : String)
    (st : ServerState)
    (habs : getS st.sessions sid = none)
    (hllm : collab.generateResponse [(Role.user, text)] = .ok rt) :
    ∃ s, getS (processUserMessage collab sid text st).sessions sid = some s ∧
      s.conversationHistory.map roleContent =
        [(Role.user, text), (Role.assistant, rt)] ∧
      ServerEvent.sessionCreated sid ∈
        (processUserMessage collab sid text st).serverEvents := by
  unfold processUserMessage getOrCreateSession
  simp only [habs, List.nil_append]
  have hm : toLLMMessages
      [{ id := st.nextMsgId, role := Role.user, content := text,
         timestamp := st.now }] = [(Role.user, text)] := rfl
  rw [hm, hllm]
  rcases htts : collab.synthesize rt with e | tts <;>
    simp only [htts] <;>
    refine ⟨_, getS_setS_self _ _ _, by simp [roleContent], by simp⟩

theorem C4_witness :
    getS emptyState.sessions "s1" = none ∧
    ∃ s, getS (processUserMessage okCollab "s1" "hello" emptyState).sessions
        "s1" = some s ∧
      s.conversationHistory.map roleContent =
        [(Role.user, "hello"), (Role.assistant, "hi there")] ∧
      ServerEvent.sessionCreated "s1" ∈
        (processUserMessage okCollab "s1" "hello" emptyState).serverEvents :=
  ⟨rfl, C4_theorem okCollab "s1" "hello" "hi there" emptyState rfl rfl⟩

/-- Inversion: an accepted guard determines the drained audio and the
suspension-point state. -/
theorem pabAccept_some_inv (sid : String) (st : ServerState) (audio : Chunk)
    (st₁ : ServerState) (h : pabAccept sid st = some (audio, st₁)) :
    ∃ ps buf, getS st.processingStates sid = some ps ∧
      ps.isProcessing = false ∧
      ps.currentAudioBuffer = some buf ∧
      buf.isProcessing = false ∧
      buf.chunks ≠ [] ∧
      audio = buf.chunks.flatten ∧
      st₁ = { st with
          processingStates :=
            setS st.processingStates sid
              { ps with
                  isProcessing := true,
                  currentAudioBuffer :=
                    some { buf with chunks := [], isProcessing := false } } } := by
  unfold pabAccept at h
  rcases hg : getS st.processingStates sid with _ | ps
  · rw [hg] at h
    simp at h
  · rw [hg] at h
    by_cases hp : ps.isProcessing
    · simp [hp] at h
    · rcases hb : ps.currentAudioBuffer with _ | buf
      · simp [hp, hb] at h
      · by_cases hbp : buf.isProcessing
        · simp [hp, hb, hbp] at h
        · by_cases hne : buf.chunks = []
          · simp [hp, hb, hbp, hne] at h
          · simp only [hp, hb, hbp, hne, if_neg, if_false, Bool.false_eq_true,
              ite_false, Option.some.injEq, Prod.mk.injEq] at h
            exact ⟨ps, buf, rfl, by simp [hp], hb, by simp [hbp], hne,
              h.1.symm, h.2.symm⟩

/-! ## Claim C5 -/

/-- C5: a transcription with empty trimmed text or confidence below 0.5
never appends a message to any session's history and never calls the LLM:
the turn is a silent no-op after the transcription stage. -/
theorem C5_theorem (collab : Collaborators) (sid : String) (st : ServerState)
    (ps : ProcessingState) (t : TranscriptionResult)
    (hps : getS st.processingStates sid = some ps)
    (ht : collab.transcribe (bufChunks ps).flatten = .ok t)
    (hlow : jsTrim t.text = "" ∨ t.confidence < mkRat 1 2) :
    (processAudioBuffer collab sid st).sessions = st.sessions ∧
    (processAudioBuffer collab sid st).llmCalls = st.llmCalls := by
  unfold processAudioBuffer
  rcases hacc : pabAccept sid st with _ | ⟨audio, st₁⟩
  · exact ⟨rfl, rfl⟩
  · obtain ⟨ps', buf, hps', hproc', hbuf', hbp', hne', haudio, hst₁⟩ :=
      pabAccept_some_inv sid st audio st₁ hacc
    have hpseq : ps' = ps := by
      rw [hps'] at hps
      exact Option.some.inj hps
    have hbc : bufChunks ps = buf.chunks := by
      rw [← hpseq]
      simp [bufChunks, hbuf']
    have ht' := ht
    rw [hbc] at ht'
    have htau : collab.transcribe audio = .ok t := by
      rw [haudio]
      exact ht'
    have hlow' : jsTrim t.text = "" ∨ ¬ (mkRat 1 2 < t.confidence) := by
      rcases hlow with h | h
      · exact Or.inl h
      · exact Or.inr (not_lt_of_gt h)
    have hfin := pabFinish_lowconf collab sid audio st₁ t htau hlow'
    refine ⟨?_, ?_⟩
    · rw [hfin.1, hst₁]
    · rw [hfin.2, hst₁]

theorem C5_witness :
    (processAudioBuffer lowConfCollab "s1" demoState).sessions =
        demoState.sessions ∧
    (processAudioBuffer lowConfCollab "s1" demoState).llmCalls =
        demoState.llmCalls :=
  C5_theorem lowConfCollab "s1" demoState demoPS
    { text := "mumble", confidence := mkRat 1 5, isFinal := true }
    rfl rfl (Or.inr (by decide))

/-! ## Claim C10 -/

/-- C10: a collaborator failure aborts the remaining stages but already
appended history messages stay recorded (no rollback) — an LLM failure
leaves the user message in the history and never reaches TTS; a synthesis
failure after a successful completion leaves both the user and the
assistant message recorded. Failures are reported to the client and the
owning process. -/
theorem C10_theorem (collab : Collaborators) (sid text : String)
    (st : ServerState) (sess : Session)
    (hsess : getS st.sessions sid = some sess) :
    (∀ e, collab.generateResponse
        (toLLMMessages sess.conversationHistory ++ [(Role.user, text)]) =
          .error e →
      (∃ s, getS (processUserMessage collab sid text st).sessions sid = some s ∧
        s.conversationHistory.map roleContent =
          sess.conversationHistory.map roleContent ++ [(Role.user, text)]) ∧
      (processUserMessage collab sid text st).ttsCalls = st.ttsCalls ∧
      (sid, ClientEvent.error ("Failed to process message: " ++ e)) ∈
        (processUserMessage collab sid text st).clientEvents ∧
      ServerEvent.error ("Failed to process message: " ++ e) ∈
        (processUserMessage collab sid text st).serverEvents) ∧
    (∀ rt e, collab.generateResponse
        (toLLMMessages sess.conversationHistory ++ [(Role.user, text)]) =
          .ok rt →
      collab.synthesize rt = .error e →
      (∃ s, getS (processUserMessage collab sid text st).sessions sid = some s ∧
        s.conversationHistory.map roleContent =
          sess.conversationHistory.map roleContent ++
            [(Role.user, text), (Role.assistant, rt)]) ∧
      (sid, ClientEvent.error ("Failed to process message: " ++ e)) ∈
        (processUserMessage collab sid text st).clientEvents ∧
      ServerEvent.error ("Failed to process message: " ++ e) ∈
        (processUserMessage collab sid text st).serverEvents) := by
  constructor
  · intro e hllm
    exact processUserMessage_llm_error collab sid text e st sess hsess hllm
  · intro rt e hllm htts
    exact processUserMessage_tts_error collab sid text rt e st sess hsess hllm htts

theorem C10_witness :
    (∃ s, getS (processUserMessage llmFailCollab "s1" "hello" demoState).sessions
        "s1" = some s ∧
      s.conversationHistory.map roleContent =
        demoSession.conversationHistory.map roleContent ++
          [(Role.user, "hello")]) ∧
    (processUserMessage llmFailCollab "s1" "hello" demoState).ttsCalls =
      demoState.ttsCalls ∧
    ("s1", ClientEvent.error ("Failed to process message: " ++ "llm down")) ∈
      (processUserMessage llmFailCollab "s1" "hello" demoState).clientEvents ∧
    ServerEvent.error ("Failed to process message: " ++ "llm down") ∈
      (processUserMessage llmFailCollab "s1" "hello" demoState).serverEvents :=
  (C10_theorem llmFailCollab "s1" "hello" demoState demoSession rfl).1
    "llm down" rfl

/-! ## Claim C7 -/

/-- C7: any collaborator failure inside the pipeline is caught and reported
to the client as an error event, and `isProcessing` is unconditionally
reset by the finally block: an invocation that starts with the busy flag
down always ends with it down, whatever the collaborators do. -/
theorem C7_theorem (collab : Collaborators) (sid : String) (st : ServerState)
    (ps : ProcessingState)
    (hps : getS st.processingStates sid = some ps)
    (hproc : ps.isProcessing = false) :
    (∃ ps', getS (processAudioBuffer collab sid st).processingStates sid =
        some ps' ∧ ps'.isProcessing = false) ∧
    (∀ buf e, ps.currentAudioBuffer = some buf → buf.isProcessing = false →
      buf.chunks ≠ [] →
      collab.transcribe buf.chunks.flatten = .error e →
      (sid, ClientEvent.error ("Failed to process audio: " ++ e)) ∈
        (processAudioBuffer collab sid st).clientEvents) ∧
    (∀ buf t e sess, ps.currentAudioBuffer = some buf →
      buf.isProcessing = false → buf.chunks ≠ [] →
      getS st.sessions sid = some sess →
      collab.transcribe buf.chunks.flatten = .ok t →
      jsTrim t.text ≠ "" → mkRat 1 2 < t.confidence →
      collab.generateResponse
        (toLLMMessages sess.conversationHistory ++ [(Role.user, t.text)]) =
          .error e →
      (sid, ClientEvent.error ("Failed to process message: " ++ e)) ∈
        (processAudioBuffer collab sid st).clientEvents ∧
      ServerEvent.error ("Failed to process message: " ++ e) ∈
        (processAudioBuffer collab sid st).serverEvents) ∧
    (∀ buf t rt e sess, ps.currentAudioBuffer = some buf →
      buf.isProcessing = false → buf.chunks ≠ [] →
      getS st.sessions sid = some sess →
      collab.transcribe buf.chunks.flatten = .ok t →
      jsTrim t.text ≠ "" → mkRat 1 2 < t.confidence →
      collab.generateResponse
        (toLLMMessages sess.conversationHistory ++ [(Role.user, t.text)]) =
          .ok rt →
      collab.synthesize rt = .error e →
      (sid, ClientEvent.error ("Failed to process message: " ++ e)) ∈
        (processAudioBuffer collab sid st).clientEvents ∧
      ServerEvent.error ("Failed to process message: " ++ e) ∈
        (processAudioBuffer collab sid st).serverEvents) := by
  refine ⟨?_, ?_, ?_, ?_⟩
  · unfold processAudioBuffer
    rcases hacc : pabAccept sid st with _ | ⟨audio, st₁⟩
    · exact ⟨ps, hps, hproc⟩
    · obtain ⟨ps', buf, hps', hproc', hbuf', hbp', hne', haudio, hst₁⟩ :=
        pabAccept_some_inv sid st audio st₁ hacc
      refine ⟨{ ps' with
          isProcessing := false,
          currentAudioBuffer :=
            some { buf with chunks := [], isProcessing := false } }, ?_, rfl⟩
      rw [pabFinish_processingStates, hst₁]
      simp
  · intro buf e hbuf hbp hne ht
    rw [processAudioBuffer,
      pabAccept_eq_some sid st ps buf hps hproc hbuf hbp hne]
    exact (pabFinish_stt_error collab sid _ _ e ht).1
  · intro buf t e sess hbuf hbp hne hsess ht htrim hconf hllm
    rw [processAudioBuffer,
      pabAccept_eq_some sid st ps buf hps hproc hbuf hbp hne]
    exact pabFinish_llm_error_reports collab sid _ _ t sess e hsess ht
      htrim hconf hllm
  · intro buf t rt e sess hbuf hbp hne hsess ht htrim hconf hllm htts
    rw [processAudioBuffer,
      pabAccept_eq_some sid st ps buf hps hproc hbuf hbp hne]
    exact pabFinish_tts_error_reports collab sid _ _ t sess rt e hsess ht
      htrim hconf hllm htts

theorem C7_witness :
    (∃ ps', getS (processAudioBuffer sttFailCollab "s1" demoState).processingStates
        "s1" = some ps' ∧ ps'.isProcessing = false) ∧
    ("s1", ClientEvent.error ("Failed to process audio: " ++ "stt down")) ∈
      (processAudioBuffer sttFailCollab "s1" demoState).clientEvents :=
  ⟨(C7_theorem sttFailCollab "s1" demoState demoPS rfl rfl).1,
    (C7_theorem sttFailCollab "s1" demoState demoPS rfl rfl).2.1 demoBuf
      "stt down" rfl rfl (by decide) rfl⟩

/-- Abstract form of the accepted guard: the suspension-point state exists
and agrees with the pre-state on everything but the processing states. -/
theorem pabAccept_some_spec (sid : String) (st : ServerState)
    (ps : ProcessingState) (buf : AudioBuffer)
    (hps : getS st.processingStates sid = some ps)
    (hproc : ps.isProcessing = false)
    (hbuf : ps.currentAudioBuffer = some buf)
    (hbp : buf.isProcessing = false)
    (hne : buf.chunks ≠ []) :
    ∃ st₁, pabAccept sid st = some (buf.chunks.flatten, st₁) ∧
      st₁.sessions = st.sessions ∧
      st₁.sttCalls = st.sttCalls ∧
      st₁.llmCalls = st.llmCalls :=
  ⟨_, pabAccept_eq_some sid st ps buf hps hproc hbuf hbp hne, rfl, rfl, rfl⟩

/-! ## Claim C1 -/

/-- Two flush triggers in the same event tick collapse to a single
pipeline invocation: the loser observes `isProcessing = true` (set by the
winner's synchronous prefix) and drops out. -/
theorem twoFlushRace_eq_single (collab : Collaborators) (sid : String)
    (st : ServerState) :
    twoFlushRace collab sid st = processAudioBuffer collab sid st := by
  rw [twoFlushRace, processAudioBuffer]
  rcases hacc : pabAccept sid st with _ | ⟨audio, st₁⟩
  · rfl
  · obtain ⟨ps', buf, hps', hproc', hbuf', hbp', hne', haudio, hst₁⟩ :=
      pabAccept_some_inv sid st audio st₁ hacc
    have hbusy : pabAccept sid st₁ = none := by
      refine pabAccept_busy sid st₁
        { ps' with
            isProcessing := true,
            currentAudioBuffer :=
              some { buf with chunks := [], isProcessing := false } } ?_ rfl
      rw [hst₁]
      exact getS_setS_self _ _ _
    show pabFinish collab sid audio (processAudioBuffer collab sid st₁) =
      pabFinish collab sid audio st₁
    rw [processAudioBuffer_of_none collab sid st₁ hbusy]

/-- C1: while `isProcessing` is true, a further submission for the session
is a literal no-op (the whole state, in particular the history length, is
unchanged); and when two flush triggers race in the same event tick,
exactly one pipeline invocation runs (one STT call, one LLM call) and the
history gains exactly one user and one assistant message, assuming
successful collaborators. -/
theorem C1_theorem (collab : Collaborators) (sid : String) (st : ServerState)
    (ps : ProcessingState)
    (hps : getS st.processingStates sid = some ps) :
    (ps.isProcessing = true →
      processAudioBuffer collab sid st = st ∧
      twoFlushRace collab sid st = st) ∧
    (∀ buf sess t rt,
      ps.isProcessing = false →
      ps.currentAudioBuffer = some buf →
      buf.isProcessing = false →
      buf.chunks ≠ [] →
      getS st.sessions sid = some sess →
      collab.transcribe buf.chunks.flatten = .ok t →
      jsTrim t.text ≠ "" →
      mkRat 1 2 < t.confidence →
      collab.generateResponse
        (toLLMMessages sess.conversationHistory ++ [(Role.user, t.text)]) =
          .ok rt →
      (twoFlushRace collab sid st).sttCalls = st.sttCalls + 1 ∧
      (twoFlushRace collab sid st).llmCalls = st.llmCalls + 1 ∧
      ∃ s, getS (twoFlushRace collab sid st).sessions sid = some s ∧
        s.conversationHistory.map roleContent =
          sess.conversationHistory.map roleContent ++
            [(Role.user, t.text), (Role.assistant, rt)]) := by
  constructor
  · intro hbusy
    have hnone : pabAccept sid st = none := pabAccept_busy sid st ps hps hbusy
    refine ⟨processAudioBuffer_of_none collab sid st hnone, ?_⟩
    rw [twoFlushRace_eq_single]
    exact processAudioBuffer_of_none collab sid st hnone
  · intro buf sess t rt hproc hbuf hbp hne hsess ht htrim hconf hllm
    obtain ⟨st₁, hacc, hsess₁, hstt₁, hllm₁⟩ :=
      pabAccept_some_spec sid st ps buf hps hproc hbuf hbp hne
    rw [twoFlushRace_eq_single]
    simp only [processAudioBuffer, hacc]
    have hok := pabFinish_ok_appends collab sid buf.chunks.flatten st₁ t sess
      rt (by rw [hsess₁]; exact hsess) ht htrim hconf hllm
    refine ⟨?_, ?_, ?_⟩
    · rw [pabFinish_sttCalls, hstt₁]
    · rw [hok.1, hllm₁]
    · exact hok.2

theorem C1_witness :
    (twoFlushRace okCollab "s1" demoState).sttCalls = demoState.sttCalls + 1 ∧
    (twoFlushRace okCollab "s1" demoState).llmCalls = demoState.llmCalls + 1 ∧
    ∃ s, getS (twoFlushRace okCollab "s1" demoState).sessions "s1" = some s ∧
      s.conversationHistory.map roleContent =
        demoSession.conversationHistory.map roleContent ++
          [(Role.user, "hello"), (Role.assistant, "hi there")] :=
  (C1_theorem okCollab "s1" demoState demoPS rfl).2 demoBuf demoSession
    { text := "hello", confidence := mkRat 9 10, isFinal := true } "hi there"
    rfl rfl rfl (by decide) rfl rfl (by decide) demo_conf_high rfl

/-! ## Claim C6 -/

/-- Whether the session's current buffer is mid-drain (false when no
buffer exists). -/
def bufIsProcessing (ps : ProcessingState) : Bool :=
  match ps.currentAudioBuffer with
  | none => false
  | some b => b.isProcessing

/-- An accepted submission performs exactly one STT call. -/
theorem processAudioBuffer_sttCalls_of_ready (collab : Collaborators)
    (sid : String) (st : ServerState) (ps : ProcessingState)
    (buf : AudioBuffer)
    (hps : getS st.processingStates sid = some ps)
    (hproc : ps.isProcessing = false)
    (hbuf : ps.currentAudioBuffer = some buf)
    (hbp : buf.isProcessing = false)
    (hne : buf.chunks ≠ []) :
    (processAudioBuffer collab sid st).sttCalls = st.sttCalls + 1 := by
  obtain ⟨st₁, hacc, _, hstt₁, _⟩ :=
    pabAccept_some_spec sid st ps buf hps hproc hbuf hbp hne
  simp only [processAudioBuffer, hacc, pabFinish_sttCalls, hstt₁]

/-- C6: an explicit end-of-utterance signal — a fragment tagged `isFinal`,
or the stop-listening/end-audio command — flushes and submits immediately,
with no minimum-duration check (the start time and current time are
unconstrained), provided at least one fragment is buffered; flushing an
empty buffer is a no-op producing no pipeline invocation. -/
theorem C6_theorem (collab : Collaborators) (sid : String) (data : Chunk)
    (st : ServerState) (ps : ProcessingState)
    (hps : getS st.processingStates sid = some ps) :
    (ps.isListening = true → ps.isProcessing = false →
      bufIsProcessing ps = false →
      (handleAudioChunk collab sid data true st).sttCalls = st.sttCalls + 1) ∧
    (bufChunks ps = [] →
      (stopListening collab sid st).sttCalls = st.sttCalls) ∧
    (ps.isProcessing = false → bufIsProcessing ps = false →
      bufChunks ps ≠ [] →
      (stopListening collab sid st).sttCalls = st.sttCalls + 1) ∧
    (bufChunks ps = [] → processAudioBuffer collab sid st = st) := by
  refine ⟨?_, ?_, ?_, ?_⟩
  · intro hlisten hproc hbpro
    rcases hb : ps.currentAudioBuffer with _ | b
    · simp only [handleAudioChunk, hps, hlisten, hb]
      simp only [Bool.true_eq_false, if_false, ite_true, if_true, ite_false]
      apply processAudioBuffer_sttCalls_of_ready collab sid
      case hps => exact getS_setS_self _ _ _
      case hproc => exact hproc
      case hbuf => rfl
      case hbp => rfl
      case hne => exact appendAndEvict_ne_nil _ _
    · have hbpb : b.isProcessing = false := by
        simp only [bufIsProcessing, hb] at hbpro
        exact hbpro
      rcases hbt : b.silenceTimer with _ | tm <;>
      · simp only [handleAudioChunk, hps, hlisten, hb, clearSilenceTimer, hbt]
        simp only [Bool.true_eq_false, if_false, ite_true, if_true, ite_false]
        apply processAudioBuffer_sttCalls_of_ready collab sid
        case hps => exact getS_setS_self _ _ _
        case hproc => exact hproc
        case hbuf => rfl
        case hbp => exact hbpb
        case hne => exact appendAndEvict_ne_nil _ _
  · intro hemp
    rcases hb : ps.currentAudioBuffer with _ | b
    · simp [stopListening, hps, hb]
    · have hbc : b.chunks = [] := by
        simp only [bufChunks, hb] at hemp
        exact hemp
      rcases hbt : b.silenceTimer with _ | tm <;>
        simp [stopListening, hps, hb, clearSilenceTimer, hbt, hbc]
  · intro hproc hbpro hne
    rcases hb : ps.currentAudioBuffer with _ | b
    · exact absurd (by simp [bufChunks, hb]) hne
    · have hbpb : b.isProcessing = false := by
        simp only [bufIsProcessing, hb] at hbpro
        exact hbpro
      have hbc : b.chunks ≠ [] := by
        simp only [bufChunks, hb] at hne
        exact hne
      rcases hbt : b.silenceTimer with _ | tm <;>
      · simp only [stopListening, hps, hb, clearSilenceTimer, hbt, hbc,
          ne_eq, not_false_eq_true, if_true, ite_true]
        apply processAudioBuffer_sttCalls_of_ready collab sid
        case hps => exact getS_setS_self _ _ _
        case hproc => exact hproc
        case hbuf => rfl
        case hbp => exact hbpb
        case hne => exact hbc
  · intro hemp
    exact processAudioBuffer_of_none collab sid st
      (pabAccept_empty sid st ps hps hemp)

/-- A listening state whose buffer is empty. -/
def demoEmptyPS : ProcessingState :=
  { isListening := true, isProcessing := false,
    currentAudioBuffer := some
      { chunks := [], startTime := 1000, lastChunkTime := 1000,
        isProcessing := false, silenceTimer := none },
    pendingTranscription := false }

/-- `demoState` with the buffer drained. -/
def demoEmptyState : ServerState :=
  { demoState with processingStates := [("s1", demoEmptyPS)] }

theorem C6_witness :
    (handleAudioChunk okCollab "s1" [9] true demoState).sttCalls =
        demoState.sttCalls + 1 ∧
    (stopListening okCollab "s1" demoState).sttCalls =
        demoState.sttCalls + 1 ∧
    (stopListening okCollab "s1" demoEmptyState).sttCalls =
        demoEmptyState.sttCalls ∧
    processAudioBuffer okCollab "s1" demoEmptyState = demoEmptyState :=
  ⟨(C6_theorem okCollab "s1" [9] demoState demoPS rfl).1 rfl rfl rfl,
    (C6_theorem okCollab "s1" [9] demoState demoPS rfl).2.2.1 rfl rfl
      (by decide),
    (C6_theorem okCollab "s1" [9] demoEmptyState demoEmptyPS rfl).2.1 rfl,
    (C6_theorem okCollab "s1" [9] demoEmptyState demoEmptyPS rfl).2.2.2 rfl⟩

/-! ## Claim C8 -/

/-- A sequence of plain fragment appends (no `isFinal` flag): the pure
Silence/Turn Detector protocol of cancel-then-reschedule. -/
def applyAppends (collab : Collaborators) (sid : String) :
    List Chunk → ServerState → ServerState
  | [], st => st
  | d :: ds, st =>
      applyAppends collab sid ds (handleAudioChunk collab sid d false st)

/-- Timer-supersession invariant for one session: timer ids are below the
allocation counter, and either no flush is scheduled for the session and
none is pending, or exactly the buffer's current timer is pending and it
is the most recently scheduled one. -/
def TimerInv (sid : String) (st : ServerState) : Prop :=
  (∀ t ∈ st.scheduledTimers, t < st.nextTimerId) ∧
  (∀ t ∈ st.cancelledTimers, t < st.nextTimerId) ∧
  ((currentTimer sid st = none ∧ pendingTimers st = []) ∨
    (∃ tm, currentTimer sid st = some tm ∧ pendingTimers st = [tm] ∧
      ∀ s ∈ st.scheduledTimers, s ≤ tm))

/-- Scheduling a fresh timer id when nothing is pending leaves exactly it
pending. -/
theorem schedule_fresh_pending (sched cancelled : List Nat) (n : Nat)
    (hc : ∀ t ∈ cancelled, t < n)
    (hpend : sched.filter (fun t => ¬ t ∈ cancelled) = []) :
    (sched ++ [n]).filter (fun t => ¬ t ∈ cancelled) = [n] := by
  have hn : ¬ n ∈ cancelled := fun h => lt_irrefl n (hc n h)
  rw [List.filter_append, hpend]
  simp [hn]

/-- Cancelling the pending timer and scheduling a fresh id supersedes it:
exactly the fresh id is pending afterwards. -/
theorem schedule_cancel_pending (sched cancelled : List Nat) (n tm : Nat)
    (hs : ∀ t ∈ sched, t < n) (hc : ∀ t ∈ cancelled, t < n)
    (hpend : sched.filter (fun t => ¬ t ∈ cancelled) = [tm]) :
    (sched ++ [n]).filter (fun t => ¬ t ∈ (cancelled ++ [tm])) = [n] := by
  have htm_mem : tm ∈ sched := by
    have h1 : tm ∈ sched.filter (fun t => ¬ t ∈ cancelled) := by
      rw [hpend]
      exact List.mem_singleton_self tm
    exact (List.mem_filter.mp h1).1
  have htmn : tm < n := hs tm htm_mem
  have hn1 : ¬ n ∈ cancelled := fun h => lt_irrefl n (hc n h)
  have hn2 : n ≠ tm := fun h => lt_irrefl n (h ▸ htmn)
  have hnil : sched.filter (fun t => ¬ t ∈ (cancelled ++ [tm])) = [] := by
    rw [List.filter_eq_nil_iff]
    intro a ha hpa
    simp only [List.mem_append, List.mem_singleton, decide_eq_true_eq,
      not_or] at hpa
    have h2 : a ∈ sched.filter (fun t => ¬ t ∈ cancelled) :=
      List.mem_filter.mpr ⟨ha, by simpa using hpa.1⟩
    rw [hpend] at h2
    exact hpa.2 (List.mem_singleton.mp h2)
  rw [List.filter_append, hnil]
  simp [hn1, hn2]

/-- Every fragment append preserves the timer-supersession invariant:
the previously scheduled flush (if any) is cancelled before the new one is
scheduled. -/
theorem TimerInv_step (collab : Collaborators) (sid : String) (d : Chunk)
    (st : ServerState) (hinv : TimerInv sid st) :
    TimerInv sid (handleAudioChunk collab sid d false st) := by
  obtain ⟨hs, hc, hcur⟩ := hinv
  rcases hg : getS st.processingStates sid with _ | ps
  · simp only [handleAudioChunk, hg]
    exact ⟨hs, hc, hcur⟩
  · by_cases hl : ps.isListening = false
    · simp only [handleAudioChunk, hg, hl, if_true, ite_true]
      exact ⟨hs, hc, hcur⟩
    · have hl' : ps.isListening = true := by
        simpa using hl
      have hboundS : ∀ t ∈ st.scheduledTimers ++ [st.nextTimerId],
          t < st.nextTimerId + 1 := by
        intro t ht
        rcases List.mem_append.mp ht with h | h
        · exact Nat.lt_succ_of_lt (hs t h)
        · rw [List.mem_singleton.mp h]
          exact Nat.lt_succ_self _
      have hmaxS : ∀ t ∈ st.scheduledTimers ++ [st.nextTimerId],
          t ≤ st.nextTimerId := by
        intro t ht
        rcases List.mem_append.mp ht with h | h
        · exact Nat.le_of_lt (hs t h)
        · rw [List.mem_singleton.mp h]
      rcases hb : ps.currentAudioBuffer with _ | b
      · -- no buffer yet: fresh buffer, nothing to cancel
        have hcn : currentTimer sid st = none := by
          simp [currentTimer, hg, hb]
        have hpend : pendingTimers st = [] := by
          rcases hcur with ⟨_, h⟩ | ⟨tm, htm, _, _⟩
          · exact h
          · rw [hcn] at htm
            cases htm
        simp only [handleAudioChunk, hg, hl', hb, clearSilenceTimer,
          Bool.true_eq_false, if_false, ite_false, ite_true, if_true]
        refine ⟨hboundS, ?_, Or.inr ⟨st.nextTimerId, ?_, ?_, hmaxS⟩⟩
        · intro t ht
          exact Nat.lt_succ_of_lt (hc t ht)
        · simp [currentTimer, getS_setS_self]
        · simp only [pendingTimers] at hpend ⊢
          exact schedule_fresh_pending _ _ _ hc hpend
      · rcases hbt : b.silenceTimer with _ | tm
        · -- buffer exists, no timer pending
          have hcn : currentTimer sid st = none := by
            simp [currentTimer, hg, hb, hbt]
          have hpend : pendingTimers st = [] := by
            rcases hcur with ⟨_, h⟩ | ⟨tm', htm, _, _⟩
            · exact h
            · rw [hcn] at htm
              cases htm
          simp only [handleAudioChunk, hg, hl', hb, clearSilenceTimer, hbt,
            Bool.true_eq_false, if_false, ite_false, ite_true, if_true]
          refine ⟨hboundS, ?_, Or.inr ⟨st.nextTimerId, ?_, ?_, hmaxS⟩⟩
          · intro t ht
            exact Nat.lt_succ_of_lt (hc t ht)
          · simp [currentTimer, getS_setS_self]
          · simp only [pendingTimers] at hpend ⊢
            exact schedule_fresh_pending _ _ _ hc hpend
        · -- a timer is pending: it is cancelled before the new schedule
          have hcs : currentTimer sid st = some tm := by
            simp [currentTimer, hg, hb, hbt]
          obtain ⟨tm', htm', hpend, _⟩ : ∃ tm', currentTimer sid st = some tm' ∧
              pendingTimers st = [tm'] ∧ ∀ s ∈ st.scheduledTimers, s ≤ tm' := by
            rcases hcur with ⟨h, _⟩ | h
            · rw [hcs] at h
              cases h
            · exact h
          have htmeq : tm' = tm := by
            rw [hcs] at htm'
            exact (Option.some.inj htm').symm
          rw [htmeq] at hpend
          simp only [handleAudioChunk, hg, hl', hb, clearSilenceTimer, hbt,
            Bool.true_eq_false, if_false, ite_false, ite_true, if_true]
          refine ⟨hboundS, ?_, Or.inr ⟨st.nextTimerId, ?_, ?_, hmaxS⟩⟩
          · intro t ht
            rcases List.mem_append.mp ht with h | h
            · exact Nat.lt_succ_of_lt (hc t h)
            · rw [List.mem_singleton.mp h]
              have : tm ∈ pendingTimers st := by
                rw [hpend]
                exact List.mem_singleton_self tm
              have htm_mem : tm ∈ st.scheduledTimers :=
                (List.mem_filter.mp this).1
              exact Nat.lt_succ_of_lt (hs tm htm_mem)
          · simp [currentTimer, getS_setS_self]
          · simp only [pendingTimers] at hpend ⊢
            exact schedule_cancel_pending _ _ _ _ hs hc hpend

/-- C8: across any sequence of fragment appends, at most one scheduled
flush is pending for the session at any time, it is the one currently held
by the buffer, and it is the most recently scheduled one — every earlier
schedule has been cancelled by a later append. -/
theorem C8_theorem (collab : Collaborators) (sid : String) (ds : List Chunk)
    (st : ServerState) (hinv : TimerInv sid st) :
    TimerInv sid (applyAppends collab sid ds st) ∧
    (pendingTimers (applyAppends collab sid ds st)).length ≤ 1 ∧
    ∀ tm ∈ pendingTimers (applyAppends collab sid ds st),
      currentTimer sid (applyAppends collab sid ds st) = some tm ∧
      ∀ s ∈ (applyAppends collab sid ds st).scheduledTimers, s ≤ tm := by
  have hfin : TimerInv sid (applyAppends collab sid ds st) := by
    induction ds generalizing st with
    | nil => exact hinv
    | cons d ds ih =>
        exact ih (handleAudioChunk collab sid d false st)
          (TimerInv_step collab sid d st hinv)
  refine ⟨hfin, ?_, ?_⟩
  · rcases hfin.2.2 with ⟨_, h⟩ | ⟨tm, _, h, _⟩ <;> simp [h]
  · intro tm htm
    rcases hfin.2.2 with ⟨_, h⟩ | ⟨tm', hcur, h, hmax⟩
    · rw [h] at htm
      cases htm
    · rw [h] at htm
      rw [List.mem_singleton.mp htm]
      exact ⟨hcur, hmax⟩

theorem C8_witness :
    TimerInv "s1" demoState ∧
    ((pendingTimers (applyAppends okCollab "s1" [[4], [5]] demoState)).length
        ≤ 1 ∧
      ∀ tm ∈ pendingTimers (applyAppends okCollab "s1" [[4], [5]] demoState),
        currentTimer "s1" (applyAppends okCollab "s1" [[4], [5]] demoState) =
          some tm ∧
        ∀ s ∈ (applyAppends okCollab "s1" [[4], [5]] demoState).scheduledTimers,
          s ≤ tm) :=
  have hinv : TimerInv "s1" demoState :=
    ⟨by decide, by decide, Or.inr ⟨0, rfl, by decide, by decide⟩⟩
  ⟨hinv, (C8_theorem okCollab "s1" [[4], [5]] demoState hinv).2⟩

end Talkative
